import Mathlib

/-!
Formal model of the ConsentLens deterministic legal-text analysis engine
(`aiEngine.js`, the `ConsentLensAIEngine` class): clause segmentation,
category pattern matching, confidence scoring, weighted risk aggregation,
linguistic modifiers, red-flag selection, benchmark comparison and
confidence estimation.  JavaScript numbers are modelled as exact rationals,
JS strings as Lean strings (the analyzed texts are ASCII).
-/

namespace ConsentLens

/-! ### JS string primitives used by the engine -/

/-- The whitespace characters recognized by the JS regex class `\s` and by
`String.prototype.trim`, restricted to the ASCII range (the full JS class
additionally contains Unicode space characters, which do not occur in the
texts this development analyzes). -/
def jsWhitespace (c : Char) : Bool :=
  c = ' ' || c = '\t' || c = '\n' || c = '\r' || c = '\x0b' || c = '\x0c'

/-- Prefix test on character lists. -/
def hasPrefixCL : List Char → List Char → Bool
  | [], _ => true
  | _ :: _, [] => false
  | a :: as, b :: bs => a = b && hasPrefixCL as bs

/-- Substring test on character lists (JS `String.prototype.includes`, and
a regex test for an alternation of literal fragments). -/
def hasInfixCL (needle : List Char) : List Char → Bool
  | [] => hasPrefixCL needle []
  | c :: cs => hasPrefixCL needle (c :: cs) || hasInfixCL needle cs

/-- `haystack.includes(needle)`. -/
def jsIncludes (haystack needle : String) : Bool :=
  hasInfixCL needle.data haystack.data

/-- `s.toLowerCase()` restricted to ASCII letters (the keyword catalog and
the analyzed texts are ASCII). -/
def jsToLower (s : String) : String :=
  ⟨s.data.map Char.toLower⟩

/-- Helper for `text.replace(/\s+/g, ' ')`: the boolean argument records
whether the previous character was whitespace (so that a whole whitespace
run collapses to a single space). -/
def collapseWSAux : Bool → List Char → List Char
  | _, [] => []
  | prevWS, c :: cs =>
    if jsWhitespace c then
      if prevWS then collapseWSAux true cs
      else ' ' :: collapseWSAux true cs
    else c :: collapseWSAux false cs

/-- `text.replace(/\s+/g, ' ')`. -/
def collapseWS (cs : List Char) : List Char := collapseWSAux false cs

/-- The two curly-quote replacements
`.replace(/[‘’]/g, "'")` and `.replace(/[“”]/g, '"')`. -/
def normQuote (c : Char) : Char :=
  if c = '‘' || c = '’' then '\x27'
  else if c = '“' || c = '”' then '"'
  else c

/-- `s.trim()`: drop leading and trailing whitespace. -/
def jsTrim (cs : List Char) : List Char :=
  ((cs.dropWhile jsWhitespace).reverse.dropWhile jsWhitespace).reverse

/-- `preprocessText(text)`: collapse whitespace runs to a single space,
normalize curly quotes, then trim. -/
def preprocessText (text : String) : String :=
  ⟨jsTrim ((collapseWS text.data).map normQuote)⟩

/-- The sentence-terminating punctuation class `[.!?]` of the clause
segmenter. -/
def isSentencePunct (c : Char) : Bool :=
  c = '.' || c = '!' || c = '?'

/-- `text.split(/[.!?]+\s+/)` as a one-pass state machine: a separator is
a maximal run of sentence punctuation followed by a maximal nonempty run
of whitespace (the two character classes are disjoint, so the regex
matches exactly these runs, greedily and without backtracking).  `skip`
is true while the whitespace tail of a separator is being consumed,
`pend` holds the current (reversed) punctuation run whose role is not yet
decided, and `acc` holds the current (reversed) fragment; `pend` and
`acc` are empty whenever `skip` is true. -/
def splitSepAux (skip : Bool) (pend acc : List Char) :
    List Char → List (List Char)
  | [] => if skip then [[]] else [(pend ++ acc).reverse]
  | c :: cs =>
    if skip && jsWhitespace c then
      splitSepAux true [] [] cs
    else if isSentencePunct c then
      splitSepAux false (c :: pend) acc cs
    else if jsWhitespace c && !pend.isEmpty then
      acc.reverse :: splitSepAux true [] [] cs
    else
      splitSepAux false [] (c :: (pend ++ acc)) cs

/-- `extractClauses(text)`: split on sentence boundaries, trim each
fragment, keep fragments longer than 20 characters. -/
def extractClauses (text : String) : List String :=
  ((splitSepAux false [] [] text.data).map
      (fun cs => String.mk (jsTrim cs))).filter
    (fun s => 20 < s.length)

/-! ### The regexes built from the keyword lists

`findPatternMatch` compiles every keyword via
`new RegExp(keyword.replace(/[-\s]/g, '[-\\s]'), 'i')`.  The generated
sources consist only of literal characters and bracket character classes,
so they denote fixed-length token sequences.  Inside a generated class,
`\s` is the whitespace class escape and a `-` is always a literal member:
it is either the first member of the class or the left end of a would-be
range whose right end is the class escape `\s`, which ECMAScript (Annex B,
non-unicode mode) treats as a literal `-`. -/

/-- One token of a compiled keyword regex: a literal character, or a
character class given by its literal members together with a flag telling
whether the class contains the `\s` escape. -/
inductive RTok where
  | lit : Char → RTok
  | cls : List Char → Bool → RTok
deriving DecidableEq

/-- Whether a single token accepts a character. -/
def rtokMatches : RTok → Char → Bool
  | .lit c, d => c = d
  | .cls cs ws, d => cs.contains d || (ws && jsWhitespace d)

/-- `keyword.replace(/[-\s]/g, '[-\\s]')`: every hyphen or whitespace
character of the keyword is replaced by the five characters `[-\s]`. -/
def sepEscape : List Char → List Char
  | [] => []
  | c :: cs =>
    if c = '-' || jsWhitespace c then
      '[' :: '-' :: '\\' :: 's' :: ']' :: sepEscape cs
    else c :: sepEscape cs

/-- Parse a generated regex source into tokens.  The first argument is
`none` outside a class and `some (members, ws)` inside one (members are
collected in reverse).  An unterminated class can not occur in a generated
source and is dropped. -/
def parseRegexAux : Option (List Char × Bool) → List Char → List RTok
  | none, [] => []
  | none, '[' :: rest => parseRegexAux (some ([], false)) rest
  | none, c :: rest => .lit c :: parseRegexAux none rest
  | some _, [] => []
  | some (cs, ws), ']' :: rest => .cls cs.reverse ws :: parseRegexAux none rest
  | some (cs, _), '\\' :: 's' :: rest => parseRegexAux (some (cs, true)) rest
  | some (cs, ws), c :: rest => parseRegexAux (some (c :: cs, ws)) rest

/-- Compile a keyword string the way `findPatternMatch` does. -/
def compileKeyword (kw : String) : List RTok :=
  parseRegexAux none (sepEscape kw.data)

/-- Whether a token sequence matches at the start of a character list. -/
def matchToksAt : List RTok → List Char → Bool
  | [], _ => true
  | _ :: _, [] => false
  | t :: ts, c :: cs => rtokMatches t c && matchToksAt ts cs

/-- `regex.test(s)`: the token sequence matches at some position.  The
`i` flag of the source regex is immaterial because the clause is
lower-cased before the test and every keyword is lower-case. -/
def regexTest (toks : List RTok) : List Char → Bool
  | [] => matchToksAt toks []
  | c :: cs => matchToksAt toks (c :: cs) || regexTest toks cs

/-! ### The static catalogs (`setupCategories`, `setupPatterns`, `setupBenchmarks`) -/

/-- The keys of the 8 risk categories, in object insertion order. -/
inductive CategoryKey where
  | DATA_SHARING_RESALE
  | FORCED_ARBITRATION
  | CLASS_ACTION_WAIVER
  | SURVEILLANCE_TRACKING
  | UNILATERAL_MODIFICATION
  | ACCOUNT_TERMINATION
  | LIABILITY_LIMITATION
  | INDEFINITE_RETENTION
deriving DecidableEq

/-- One entry of the category catalog. -/
structure Category where
  name : String
  weight : ℚ
  description : String
  irreversible : Bool
deriving DecidableEq

/-- The category catalog of `setupCategories`. -/
def categories : CategoryKey → Category
  | .DATA_SHARING_RESALE =>
    { name := "Data Sharing & Resale", weight := 0.18
      description := "Clauses allowing sharing or selling user data to third parties"
      irreversible := false }
  | .FORCED_ARBITRATION =>
    { name := "Forced Arbitration", weight := 0.16
      description := "Mandatory arbitration clauses preventing court access"
      irreversible := true }
  | .CLASS_ACTION_WAIVER =>
    { name := "Class Action Waiver", weight := 0.14
      description := "Prohibitions on participating in class action lawsuits"
      irreversible := true }
  | .SURVEILLANCE_TRACKING =>
    { name := "Surveillance & Tracking", weight := 0.15
      description := "Extensive monitoring and tracking of user behavior"
      irreversible := false }
  | .UNILATERAL_MODIFICATION =>
    { name := "Unilateral Policy Modification", weight := 0.12
      description := "Company can change terms without consent"
      irreversible := false }
  | .ACCOUNT_TERMINATION =>
    { name := "Account Termination Rights", weight := 0.08
      description := "Broad rights to suspend or terminate accounts"
      irreversible := false }
  | .LIABILITY_LIMITATION =>
    { name := "Liability Limitation", weight := 0.09
      description := "Limiting company liability for damages"
      irreversible := false }
  | .INDEFINITE_RETENTION =>
    { name := "Indefinite Data Retention", weight := 0.08
      description := "Keeping user data indefinitely without deletion options"
      irreversible := false }

/-- `Object.entries(this.categories)` iteration order. -/
def categoryList : List CategoryKey :=
  [.DATA_SHARING_RESALE, .FORCED_ARBITRATION, .CLASS_ACTION_WAIVER,
   .SURVEILLANCE_TRACKING, .UNILATERAL_MODIFICATION, .ACCOUNT_TERMINATION,
   .LIABILITY_LIMITATION, .INDEFINITE_RETENTION]

/-- One entry of the pattern catalog. -/
structure PatternSet where
  keywords : List String
  severity : ℚ
  indicators : List String
deriving DecidableEq

/-- The pattern catalog of `setupPatterns`.  The keyword strings are the
values of the JS string literals: in a JS string literal the escape `\s`
is the plain character `s`, so the source text `'third[-\s]party
advertisers'` denotes the string `third[-s]party advertisers` (and
likewise for the four other bracketed keywords). -/
def patterns : CategoryKey → PatternSet
  | .DATA_SHARING_RESALE =>
    { keywords :=
        ["share your data with third parties",
         "sell your personal information",
         "data brokers",
         "affiliate sharing",
         "partner companies",
         "third[-s]party advertisers",
         "cross[-s]device tracking",
         "data resellers"]
      severity := 0.85
      indicators := ["sell", "resell", "share with third", "data broker", "affiliate"] }
  | .FORCED_ARBITRATION =>
    { keywords :=
        ["mandatory arbitration",
         "binding arbitration",
         "waive right to jury trial",
         "arbitrate any dispute",
         "no right to sue in court",
         "individual arbitration only"]
      severity := 0.95
      indicators := ["arbitration", "waive", "jury trial", "dispute resolution"] }
  | .CLASS_ACTION_WAIVER =>
    { keywords :=
        ["waive right to class action",
         "no class[-s]action lawsuits",
         "individual claims only",
         "cannot participate in class action",
         "class action waiver"]
      severity := 0.90
      indicators := ["class action", "collective action", "group lawsuit"] }
  | .SURVEILLANCE_TRACKING =>
    { keywords :=
        ["track your location",
         "monitor your activity",
         "collect usage data",
         "behavioral tracking",
         "cross[-s]site tracking",
         "fingerprinting",
         "device identifiers"]
      severity := 0.75
      indicators := ["track", "monitor", "collect data", "fingerprint", "identifiers"] }
  | .UNILATERAL_MODIFICATION =>
    { keywords :=
        ["reserve the right to modify",
         "change these terms at any time",
         "update without notice",
         "modifications effective immediately",
         "continued use constitutes acceptance"]
      severity := 0.70
      indicators := ["modify", "change", "update", "without notice", "reserve right"] }
  | .ACCOUNT_TERMINATION =>
    { keywords :=
        ["terminate your account at any time",
         "suspend without notice",
         "refuse service at our discretion",
         "disable access immediately",
         "cancel for any reason"]
      severity := 0.65
      indicators := ["terminate", "suspend", "disable", "refuse service", "without notice"] }
  | .LIABILITY_LIMITATION =>
    { keywords :=
        ["not liable for any damages",
         "maximum liability limited to",
         "exclude consequential damages",
         "as[-s]is without warranty",
         "disclaim all warranties"]
      severity := 0.60
      indicators := ["not liable", "limited liability", "exclude damages", "warranty disclaimer"] }
  | .INDEFINITE_RETENTION =>
    { keywords :=
        ["retain your data indefinitely",
         "no obligation to delete",
         "store as long as necessary",
         "keep records forever",
         "indefinite storage period"]
      severity := 0.70
      indicators := ["retain indefinitely", "no obligation to delete", "store forever", "indefinite period"] }

/-- The keys of the 4 industry benchmark buckets. -/
inductive BenchKey where
  | SOCIAL_MEDIA
  | E_COMMERCE
  | FINANCIAL
  | TECHNOLOGY
deriving DecidableEq

/-- One entry of the benchmark catalog. -/
structure BenchmarkBucket where
  name : String
  average_risk_score : ℚ
  examples : List String
deriving DecidableEq

/-- The benchmark catalog of `setupBenchmarks`. -/
def benchmarks : BenchKey → BenchmarkBucket
  | .SOCIAL_MEDIA =>
    { name := "Social Media Platforms", average_risk_score := 65
      examples := ["Facebook", "Twitter", "Instagram", "TikTok"] }
  | .E_COMMERCE =>
    { name := "E-commerce Platforms", average_risk_score := 45
      examples := ["Amazon", "eBay", "Shopify", "Etsy"] }
  | .FINANCIAL =>
    { name := "Financial Services", average_risk_score := 55
      examples := ["PayPal", "Banks", "Investment platforms"] }
  | .TECHNOLOGY =>
    { name := "Technology Companies", average_risk_score := 50
      examples := ["Google", "Microsoft", "Apple", "Software services"] }

/-! ### Pattern matching per clause -/

/-- The value returned by a successful `findPatternMatch`. -/
structure PatMatch where
  severity : ℚ
  confidence : ℚ
  keywords : List String
deriving DecidableEq

/-- `findPatternMatch(clause, pattern)`: lower-case the clause, test every
keyword regex, and if at least one matched return the category severity,
`confidence = min(0.95, 0.6 + totalMatches * 0.15)` and the matched
keywords in keyword-list order. -/
def findPatternMatch (clause : String) (ps : PatternSet) : Option PatMatch :=
  let lowerClause := jsToLower clause
  let matchedKeywords := ps.keywords.filter
    (fun kw => regexTest (compileKeyword kw) lowerClause.data)
  let totalMatches := matchedKeywords.length
  if totalMatches = 0 then none
  else some
    { severity := ps.severity
      confidence := min 0.95 (0.6 + (totalMatches : ℚ) * 0.15)
      keywords := matchedKeywords }

/-- `generateExplanation(categoryKey, clause, match)`: a static
category-keyed lookup (the clause and the match are not used; the
fall-through default string of the source is unreachable because the
lookup table covers all 8 keys). -/
def generateExplanation (categoryKey : CategoryKey) (_clause : String)
    (_m : PatMatch) : String :=
  match categoryKey with
  | .DATA_SHARING_RESALE => "This clause indicates your personal data may be shared with or sold to third parties, including advertisers, data brokers, or affiliate companies."
  | .FORCED_ARBITRATION => "You would be required to resolve disputes through private arbitration rather than in court, forfeiting your right to a jury trial."
  | .CLASS_ACTION_WAIVER => "You cannot join class-action lawsuits against the company, limiting your ability to seek justice collectively with other users."
  | .SURVEILLANCE_TRACKING => "The company monitors and tracks your activities, location, or behavior, potentially across multiple devices and platforms."
  | .UNILATERAL_MODIFICATION => "The company can change these terms at any time without notice, and your continued use constitutes automatic acceptance."
  | .ACCOUNT_TERMINATION => "The company can suspend or terminate your account at their discretion, potentially without notice or explanation."
  | .LIABILITY_LIMITATION => "The company\x27s liability for damages is limited, potentially leaving you without recourse if their service causes you harm."
  | .INDEFINITE_RETENTION => "Your data may be kept indefinitely even after you delete your account or stop using the service."

/-- A match record as pushed by `analyzeClause`. -/
structure Match where
  category : CategoryKey
  category_name : String
  severity : ℚ
  confidence : ℚ
  matched_text : String
  matched_keywords : List String
  irreversible : Bool
  explanation : String
deriving DecidableEq

/-- The per-clause analysis record.  The source field `matches` is a
reserved word in Lean and is called `matchList` here. -/
structure ClauseAnalysis where
  text : String
  matchList : List Match
  is_risky : Bool
  highest_risk : ℚ
deriving DecidableEq

/-- `analyzeClause(clause)`: test every category in catalog order and
collect a `Match` for each category whose patterns fire.  `highest_risk`
is `Math.max` over the matched severities (all severities are positive,
so folding `max` from `0` computes it).  The match object pushed by the
loop body is `mkMatch`. -/
def mkMatch (categoryKey : CategoryKey) (clause : String) (m : PatMatch) :
    Match :=
  { category := categoryKey
    category_name := (categories categoryKey).name
    severity := m.severity
    confidence := m.confidence
    matched_text := clause
    matched_keywords := m.keywords
    irreversible := (categories categoryKey).irreversible
    explanation := generateExplanation categoryKey clause m }

def analyzeClause (clause : String) : ClauseAnalysis :=
  let ms := categoryList.filterMap (fun categoryKey =>
    (findPatternMatch clause (patterns categoryKey)).map
      (mkMatch categoryKey clause))
  { text := clause
    matchList := ms
    is_risky := ms.length != 0
    highest_risk := if ms.length != 0 then (ms.map (·.severity)).foldl max 0 else 0 }

/-! ### Risk scoring -/

/-- The `user_preferences` option object; absent fields are `none`
(defaults are applied where the source destructures them). -/
structure UserPreferences where
  privacy_weight : Option ℚ := none
  legal_rights_weight : Option ℚ := none
  convenience_weight : Option ℚ := none
deriving DecidableEq

/-- `getUserAdjustedWeight(category, user_preferences)`: defaults
`{privacy: 0.4, legal_rights: 0.4, convenience: 0.2}`; the source's
`|| 1.0` fallback is unreachable because the mapping covers all 8 keys. -/
def getUserAdjustedWeight (category : CategoryKey)
    (user_preferences : UserPreferences) : ℚ :=
  let privacy_weight := user_preferences.privacy_weight.getD 0.4
  let legal_rights_weight := user_preferences.legal_rights_weight.getD 0.4
  let convenience_weight := user_preferences.convenience_weight.getD 0.2
  match category with
  | .DATA_SHARING_RESALE => privacy_weight
  | .SURVEILLANCE_TRACKING => privacy_weight
  | .INDEFINITE_RETENTION => privacy_weight
  | .FORCED_ARBITRATION => legal_rights_weight
  | .CLASS_ACTION_WAIVER => legal_rights_weight
  | .LIABILITY_LIMITATION => legal_rights_weight
  | .UNILATERAL_MODIFICATION => convenience_weight
  | .ACCOUNT_TERMINATION => convenience_weight

/-- The test `/(?:will|must|shall|required to)/` of
`applyLinguisticModifiers` (an alternation of literal fragments is a
substring test). -/
def hasObligationLanguage (lowerText : String) : Bool :=
  jsIncludes lowerText "will" || jsIncludes lowerText "must" ||
  jsIncludes lowerText "shall" || jsIncludes lowerText "required to"

/-- The test `/unconditional|absolute|irrevocable/`. -/
def hasAbsoluteLanguage (lowerText : String) : Bool :=
  jsIncludes lowerText "unconditional" || jsIncludes lowerText "absolute" ||
  jsIncludes lowerText "irrevocable"

/-- The test `/(?:may|might|could|optional|at your discretion)/`. -/
def hasPermissiveLanguage (lowerText : String) : Bool :=
  jsIncludes lowerText "may" || jsIncludes lowerText "might" ||
  jsIncludes lowerText "could" || jsIncludes lowerText "optional" ||
  jsIncludes lowerText "at your discretion"

/-- `applyLinguisticModifiers(score, text)`: additive modifiers on a base
multiplier of 1.0 (+0.1 obligation, +0.15 absolute, −0.1 permissive). -/
def applyLinguisticModifiers (score : ℚ) (text : String) : ℚ :=
  let lowerText := jsToLower text
  let m1 : ℚ := 1.0
  let m2 := if hasObligationLanguage lowerText then m1 + 0.1 else m1
  let m3 := if hasAbsoluteLanguage lowerText then m2 + 0.15 else m2
  let m4 := if hasPermissiveLanguage lowerText then m3 - 0.1 else m3
  score * m4

/-- `calculateRiskScore(clauseAnalyses, user_preferences)`. -/
def calculateRiskScore (clauseAnalyses : List ClauseAnalysis)
    (user_preferences : UserPreferences) : ℚ :=
  if clauseAnalyses.length = 0 then 0
  else
    let riskyClauses := clauseAnalyses.filter (·.is_risky)
    if riskyClauses.length = 0 then 0
    else
      let contribs := (riskyClauses.map (fun clause =>
        clause.matchList.map (fun m =>
          let categoryWeight := (categories m.category).weight
          let userWeight := getUserAdjustedWeight m.category user_preferences
          let combinedWeight := categoryWeight * userWeight
          (m.severity * combinedWeight, combinedWeight)))).flatten
      let totalWeightedScore := (contribs.map Prod.fst).sum
      let totalWeight := (contribs.map Prod.snd).sum
      if totalWeight = 0 then 0
      else
        let rawScore := totalWeightedScore / totalWeight * 100
        let text := String.intercalate " " (clauseAnalyses.map (·.text))
        let finalScore := applyLinguisticModifiers rawScore text
        min 100 (max 0 finalScore)

/-- `getRiskLevel(score)`. -/
def getRiskLevel (score : ℚ) : String :=
  if score ≥ 70 then "HIGH"
  else if score ≥ 40 then "MEDIUM"
  else "LOW"

/-! ### Red-flag selection -/

/-- A red-flag report entry. -/
structure RedFlag where
  text : String
  explanation : String
  implication : String
  irreversible : Bool
  confidence : ℚ
  category : CategoryKey
  category_name : String
deriving DecidableEq

/-- `generateImplication(category)`: a static category-keyed lookup (the
fall-through default string of the source is unreachable). -/
def generateImplication (category : CategoryKey) : String :=
  match category with
  | .DATA_SHARING_RESALE => "Your personal data could be sold to or shared with unknown third parties for profit."
  | .FORCED_ARBITRATION => "You permanently give up your right to sue this company in court, even if they seriously harm you."
  | .CLASS_ACTION_WAIVER => "You cannot join other users in class-action lawsuits, limiting your legal recourse."
  | .SURVEILLANCE_TRACKING => "The company may extensively monitor your activities across devices and platforms."
  | .UNILATERAL_MODIFICATION => "The company can change the rules at any time without asking for your permission."
  | .ACCOUNT_TERMINATION => "Your account could be deleted at any time without warning or explanation."
  | .LIABILITY_LIMITATION => "The company limits what they have to pay if their mistakes cause you harm."
  | .INDEFINITE_RETENTION => "Your data may be kept forever, even after you delete your account."

/-- The sort key `severity * confidence` of the red-flag comparator. -/
def flagScore (m : Match) : ℚ := m.severity * m.confidence

/-- Stable insertion into a list already sorted by descending
`flagScore`: the element goes after every earlier element whose score is
greater than or equal to its own. -/
def insertDesc (mc : Match × String) : List (Match × String) → List (Match × String)
  | [] => [mc]
  | b :: bs =>
    if flagScore mc.1 ≤ flagScore b.1 then b :: insertDesc mc bs
    else mc :: b :: bs

/-- `allMatches.sort((a, b) => b.severity*b.confidence - a.severity*a.confidence)`:
JS `Array.prototype.sort` is stable and the comparator is a consistent
total preorder, so it is the stable descending sort by `flagScore`. -/
def sortByScoreDesc (l : List (Match × String)) : List (Match × String) :=
  l.foldl (fun acc mc => insertDesc mc acc) []

/-- The red-flag entry built from a selected match. -/
def redFlagOf (m : Match) : RedFlag :=
  { text := m.matched_text
    explanation := m.explanation
    implication := generateImplication m.category
    irreversible := m.irreversible
    confidence := m.confidence
    category := m.category
    category_name := m.category_name }

/-- One step of the selection loop of `generateRedFlags`: the accumulator
is the pair (red flags so far, used categories); a match is emitted when
its category is unused and fewer than 3 flags have been emitted. -/
def rfStep (acc : List RedFlag × List CategoryKey) (mc : Match × String) :
    List RedFlag × List CategoryKey :=
  if mc.1.category ∉ acc.2 ∧ acc.1.length < 3 then
    (acc.1 ++ [redFlagOf mc.1], acc.2 ++ [mc.1.category])
  else acc

/-- `generateRedFlags(clauseAnalyses)`: pool every match with its source
clause text, sort by descending `severity * confidence`, and take the top
3 entries with pairwise distinct categories. -/
def generateRedFlags (clauseAnalyses : List ClauseAnalysis) : List RedFlag :=
  let allMatches := (clauseAnalyses.map (fun clause =>
    clause.matchList.map (fun m => (m, clause.text)))).flatten
  let sorted := sortByScoreDesc allMatches
  (sorted.foldl rfStep ([], [])).1

/-! ### Category aggregation, benchmark, confidence -/

/-- One entry of the per-category aggregate output. -/
structure CategoryScore where
  key : CategoryKey
  name : String
  severity : ℚ
deriving DecidableEq

/-- `calculateCategoryScores(clauseAnalyses)`: per category, the sum of
match severities and the match count across all clauses; categories with
no matches are omitted; the displayed severity is
`(sum / count) * 100`.  Output is in catalog order (the iteration order of
the accumulator object). -/
def calculateCategoryScores (clauseAnalyses : List ClauseAnalysis) :
    List CategoryScore :=
  let totals := fun (k : CategoryKey) =>
    let ms := (clauseAnalyses.map (fun c =>
      c.matchList.filter (fun m => m.category = k))).flatten
    ((ms.map (·.severity)).sum, ms.length)
  (categoryList.filter (fun k => (totals k).2 != 0)).map (fun k =>
    { key := k
      name := (categories k).name
      severity := (totals k).1 / ((totals k).2 : ℚ) * 100 })

/-- Models the platform API `new URL(url).hostname` for absolute URLs of
the form `scheme://host[:port]/...`.  The real API throws on strings with
no scheme; that path is a documented defect, is exercised by no claim, and
is modelled as the empty hostname. -/
def urlHostname (u : String) : String :=
  match u.splitOn "://" with
  | _ :: rest :: _ =>
    String.mk (rest.data.takeWhile
      (fun c => !(c = '/' || c = ':' || c = '?' || c = '#')))
  | _ => ""

/-- The domain string used by `generateBenchmark`: the lower-cased
hostname when a `url` option is present, otherwise the empty string. -/
def benchDomain (url : Option String) : String :=
  match url with
  | some u => jsToLower (urlHostname u)
  | none => ""

/-- The `if/else if` chain of `generateBenchmark` classifying a domain
into a bucket, defaulting to `TECHNOLOGY`. -/
def benchCategoryOf (domain : String) : BenchKey :=
  if jsIncludes domain "facebook" || jsIncludes domain "twitter" ||
     jsIncludes domain "instagram" || jsIncludes domain "tiktok" then
    .SOCIAL_MEDIA
  else if jsIncludes domain "amazon" || jsIncludes domain "ebay" ||
     jsIncludes domain "shop" || jsIncludes domain "buy" then
    .E_COMMERCE
  else if jsIncludes domain "bank" || jsIncludes domain "finance" ||
     jsIncludes domain "paypal" || jsIncludes domain "invest" then
    .FINANCIAL
  else .TECHNOLOGY

/-- The bucket `generateBenchmark` selects for a given `url` option. -/
def benchBucketFor (url : Option String) : BenchKey :=
  benchCategoryOf (benchDomain url)

/-- `Math.round(q)`: round half toward positive infinity. -/
def jsRound (q : ℚ) : ℤ := ⌊q + 1 / 2⌋

/-- The benchmark comparison object. -/
structure Benchmark where
  category : String
  percentage : ℤ
  average_score : ℚ
  comparison : String
deriving DecidableEq

/-- `generateBenchmark(url, riskScore)`. -/
def generateBenchmark (url : Option String) (riskScore : ℚ) : Benchmark :=
  let bucket := benchmarks (benchBucketFor url)
  let percentage := jsRound ((riskScore - bucket.average_risk_score) /
    bucket.average_risk_score * 100)
  { category := bucket.name
    percentage := percentage
    average_score := bucket.average_risk_score
    comparison := if percentage > 0 then "worse" else "better" }

/-- `calculateConfidence(clauseAnalyses)`: the arithmetic mean of every
match confidence across the risky clauses, 1.0 when there is nothing to
average. -/
def calculateConfidence (clauseAnalyses : List ClauseAnalysis) : ℚ :=
  if clauseAnalyses.length = 0 then 1.0
  else
    let riskyClauses := clauseAnalyses.filter (·.is_risky)
    if riskyClauses.length = 0 then 1.0
    else
      let confidences := (riskyClauses.map (fun c =>
        c.matchList.map (·.confidence))).flatten
      if confidences.length != 0 then
        confidences.sum / (confidences.length : ℚ)
      else 1.0

/-! ### The `analyze` entry point -/

/-- The `options` argument of `analyze`; absent fields are `none` / `{}`. -/
structure Options where
  url : Option String := none
  language : Option String := none
  user_preferences : UserPreferences := {}
deriving DecidableEq

/-- The `metadata` field of the result. -/
structure Metadata where
  url : Option String
  language : String
  text_length : ℕ
  deterministic_analysis : Bool
deriving DecidableEq

/-- The result object of `analyze`. -/
structure AnalysisResult where
  risk_score : ℚ
  risk_level : String
  red_flags : List RedFlag
  categories : List CategoryScore
  benchmark : Benchmark
  clauses_analyzed : ℕ
  confidence : ℚ
  metadata : Metadata
deriving DecidableEq

/-- `analyze(text, options)`: the full pipeline.  The source function is
`async` but performs no suspension; it is a pure computation. -/
def analyze (text : String) (options : Options) : AnalysisResult :=
  let url := options.url
  let language := options.language.getD "en"
  let user_preferences := options.user_preferences
  let normalizedText := preprocessText text
  let clauses := extractClauses normalizedText
  let clauseAnalyses := clauses.map analyzeClause
  let riskScore := calculateRiskScore clauseAnalyses user_preferences
  let riskLevel := getRiskLevel riskScore
  let redFlags := generateRedFlags clauseAnalyses
  let categoryScores := calculateCategoryScores clauseAnalyses
  let benchmark := generateBenchmark url riskScore
  { risk_score := riskScore
    risk_level := riskLevel
    red_flags := redFlags
    categories := categoryScores
    benchmark := benchmark
    clauses_analyzed := clauseAnalyses.length
    confidence := calculateConfidence clauseAnalyses
    metadata :=
      { url := url
        language := language
        text_length := text.length
        deterministic_analysis := true } }

/-- The list of keywords of a pattern set firing on a clause, exactly the
list `matchedKeywords` computed inside `findPatternMatch` (definitionally
equal to it after zeta reduction). -/
def matchedKeywordsOf (clause : String) (ps : PatternSet) : List String :=
  ps.keywords.filter
    (fun kw => regexTest (compileKeyword kw) (jsToLower clause).data)

/-- The scenario text of the data-sharing test case. -/
def c1Text : String :=
  "We may share your data with third party advertisers."

/-- The scenario text of the arbitration test case. -/
def c6Text : String :=
  "You must agree to mandatory arbitration and waive right to jury trial and waive right to class action."

/-! ### Properties of the engine -/

unseal Rat.mul Rat.inv Rat.add Rat.sub Rat.ofScientific in
/-- C8: the weights of the 8 entries of the static category catalog are
0.18, 0.16, 0.14, 0.15, 0.12, 0.08, 0.09, 0.08 and they sum to exactly 1,
independent of any input. -/
theorem categoryWeightsSumToOne :
    categoryList.map (fun k => (categories k).weight) =
      [0.18, 0.16, 0.14, 0.15, 0.12, 0.08, 0.09, 0.08] ∧
    (categoryList.map (fun k => (categories k).weight)).sum = 1 := by
  constructor <;> decide

/-- C7: `analyze` is deterministic: two calls with identical `(text,
options)` arguments return identical `AnalysisResult` values (the engine
is a pure function over the immutable catalogs; no state is carried
between calls). -/
theorem analyzeDeterministic (t1 t2 : String) (o1 o2 : Options)
    (ht : t1 = t2) (ho : o1 = o2) : analyze t1 o1 = analyze t2 o2 := by
  rw [ht, ho]

/-- Witness for `analyzeDeterministic` at a concrete input. -/
theorem analyzeDeterministicWitness :
    ("terms" = "terms") ∧ (({} : Options) = {}) ∧
    analyze "terms" {} = analyze "terms" {} :=
  ⟨rfl, rfl, analyzeDeterministic "terms" "terms" {} {} rfl rfl⟩

/-- C3: for every input, the `risk_score` field of the result of
`analyze` lies in [0, 100] (every non-trivial branch of
`calculateRiskScore` ends in a clamp `min 100 (max 0 _)`, and the
degenerate branches return 0). -/
theorem riskScoreInRange (text : String) (options : Options) :
    0 ≤ (analyze text options).risk_score ∧
    (analyze text options).risk_score ≤ 100 := by
  have h : ∀ (cs : List ClauseAnalysis) (p : UserPreferences),
      0 ≤ calculateRiskScore cs p ∧ calculateRiskScore cs p ≤ 100 := by
    intro cs p
    unfold calculateRiskScore
    dsimp only
    split_ifs
    · norm_num
    · norm_num
    · norm_num
    · exact ⟨le_min (by norm_num) (le_max_left _ _), min_le_left _ _⟩
  exact h _ _

/-- The threshold characterization of `getRiskLevel`. -/
theorem getRiskLevelSpec (s : ℚ) :
    (getRiskLevel s = "HIGH" ↔ s ≥ 70) ∧
    (getRiskLevel s = "MEDIUM" ↔ 40 ≤ s ∧ s < 70) ∧
    (getRiskLevel s = "LOW" ↔ s < 40) := by
  unfold getRiskLevel
  split_ifs with h1 h2
  · exact ⟨iff_of_true rfl h1,
      iff_of_false (by decide) (fun hh => by linarith [hh.2]),
      iff_of_false (by decide) (by intro hh; linarith)⟩
  · exact ⟨iff_of_false (by decide) h1,
      iff_of_true rfl ⟨h2, lt_of_not_le h1⟩,
      iff_of_false (by decide) (by intro hh; linarith)⟩
  · exact ⟨iff_of_false (by decide) h1,
      iff_of_false (by decide) (fun hh => h2 hh.1),
      iff_of_true rfl (lt_of_not_le h2)⟩

/-- C10: the risk level of an analysis is determined solely by the final
clamped score via the fixed thresholds of `getRiskLevel`: HIGH iff
score ≥ 70, MEDIUM iff 40 ≤ score < 70, LOW iff score < 40. -/
theorem riskLevelThresholds (text : String) (options : Options) :
    ((analyze text options).risk_level = "HIGH" ↔
      (analyze text options).risk_score ≥ 70) ∧
    ((analyze text options).risk_level = "MEDIUM" ↔
      (40 ≤ (analyze text options).risk_score ∧
       (analyze text options).risk_score < 70)) ∧
    ((analyze text options).risk_level = "LOW" ↔
      (analyze text options).risk_score < 40) := by
  have hx : (analyze text options).risk_level =
      getRiskLevel ((analyze text options).risk_score) := rfl
  rw [hx]
  exact getRiskLevelSpec _

/-- C9: the benchmark step computes
`percentage = round(((riskScore − bucketAverage) / bucketAverage) × 100)`
for the selected bucket; a positive percentage implies the page scores
above (riskier than) the bucket average; and with no URL supplied the
selected bucket is TECHNOLOGY, whose average risk score is 50. -/
theorem benchmarkPercentageSpec (url : Option String) (riskScore : ℚ) :
    ((generateBenchmark url riskScore).percentage =
      jsRound ((riskScore - (benchmarks (benchBucketFor url)).average_risk_score) /
        (benchmarks (benchBucketFor url)).average_risk_score * 100)) ∧
    ((generateBenchmark url riskScore).percentage > 0 →
      riskScore > (benchmarks (benchBucketFor url)).average_risk_score) ∧
    benchBucketFor none = BenchKey.TECHNOLOGY ∧
    (benchmarks BenchKey.TECHNOLOGY).average_risk_score = 50 := by
  refine ⟨rfl, ?_, by decide, rfl⟩
  intro hpos
  have hapos : 0 < (benchmarks (benchBucketFor url)).average_risk_score := by
    cases benchBucketFor url <;> norm_num [benchmarks]
  have hx : (0 : ℤ) + 1 ≤
      jsRound ((riskScore - (benchmarks (benchBucketFor url)).average_risk_score) /
        (benchmarks (benchBucketFor url)).average_risk_score * 100) :=
    Int.add_one_le_iff.mpr hpos
  have hy := Int.le_floor.mp hx
  push_cast at hy
  have hz : 0 < (riskScore - (benchmarks (benchBucketFor url)).average_risk_score) /
      (benchmarks (benchBucketFor url)).average_risk_score := by
    linarith
  rcases div_pos_iff.mp hz with ⟨hnum, _⟩ | ⟨_, hden⟩
  · linarith
  · linarith

unseal Rat.mul Rat.inv Rat.add Rat.sub Rat.ofScientific in
/-- Witness for `benchmarkPercentageSpec`: with no URL and a risk score
of 80, the percentage is the rounded formula value and the positive
percentage certifies a score above the TECHNOLOGY average. -/
theorem benchmarkPercentageSpecWitness :
    ((generateBenchmark none 80).percentage =
      jsRound ((80 - (benchmarks (benchBucketFor none)).average_risk_score) /
        (benchmarks (benchBucketFor none)).average_risk_score * 100)) ∧
    (80 : ℚ) > (benchmarks (benchBucketFor none)).average_risk_score :=
  ⟨(benchmarkPercentageSpec none 80).1,
   (benchmarkPercentageSpec none 80).2.1 (by decide)⟩

unseal Rat.mul Rat.inv Rat.add Rat.sub Rat.ofScientific in
/-- C1 (evaluation at the failing input): on the text `"We may share your
data with third party advertisers."` the engine finds no match at all — in
particular no `DATA_SHARING_RESALE` match — and returns `risk_score = 0`
with no red flags (and so no permissive modifier is ever applied).  The
keyword written `'third[-\s]party advertisers'` in the source is the JS
string `third[-s]party advertisers`, and the regex built from it demands
the literal characters `s]` between `third` and `party`, so it can never
fire on this text. -/
theorem dataSharingScenarioEval :
    ((extractClauses (preprocessText c1Text)).map (fun clause =>
      (analyzeClause clause).matchList)) = [[]] ∧
    findPatternMatch c1Text (patterns CategoryKey.DATA_SHARING_RESALE) = none ∧
    (analyze c1Text {}).risk_score = 0 ∧
    (analyze c1Text {}).red_flags = [] ∧
    (analyze c1Text {}).risk_level = "LOW" := by
  refine ⟨by decide, by decide, by decide, by decide, by decide⟩

unseal Rat.mul Rat.inv Rat.add Rat.sub Rat.ofScientific in
/-- C6: on the arbitration scenario text the (single) clause matches both
`FORCED_ARBITRATION` and `CLASS_ACTION_WAIVER`, the obligation modifier
fires (and the permissive one does not), and the returned risk level is
HIGH. -/
theorem arbitrationScenarioHolds :
    ((extractClauses (preprocessText c6Text)).map (fun clause =>
        (analyzeClause clause).matchList.map (fun m => m.category))) =
      [[CategoryKey.FORCED_ARBITRATION, CategoryKey.CLASS_ACTION_WAIVER]] ∧
    hasObligationLanguage (jsToLower
      (String.intercalate " " (extractClauses (preprocessText c6Text)))) = true ∧
    hasPermissiveLanguage (jsToLower
      (String.intercalate " " (extractClauses (preprocessText c6Text)))) = false ∧
    (analyze c6Text {}).risk_level = "HIGH" := by
  refine ⟨by decide, by decide, by decide, by decide⟩

/-- When at least one keyword fires, `findPatternMatch` returns the
category severity, the confidence formula value, and the matched
keywords. -/
theorem findPatternMatchSome (clause : String) (ps : PatternSet)
    (h : (matchedKeywordsOf clause ps).length ≠ 0) :
    findPatternMatch clause ps = some
      { severity := ps.severity
        confidence := min 0.95
          (0.6 + ((matchedKeywordsOf clause ps).length : ℚ) * 0.15)
        keywords := matchedKeywordsOf clause ps } := by
  unfold findPatternMatch
  dsimp only
  split
  · rename_i hzero
    exact absurd hzero h
  · rfl

/-- C2: for every clause and category, if at least one of the category's
keyword patterns matches the clause, the clause analysis contains a Match
of that category whose severity is the category's fixed baseline and
whose confidence is `min(0.95, 0.6 + 0.15 × matchCount)`, `matchCount`
being the number of the category's keywords that match. -/
theorem matchConfidenceFormula (clause : String) (k : CategoryKey)
    (h : (matchedKeywordsOf clause (patterns k)).length ≠ 0) :
    ∃ m ∈ (analyzeClause clause).matchList,
      m.category = k ∧
      m.severity = (patterns k).severity ∧
      m.confidence = min 0.95
        (0.6 + ((matchedKeywordsOf clause (patterns k)).length : ℚ) * 0.15) := by
  have hk : k ∈ categoryList := by cases k <;> decide
  have hfpm := findPatternMatchSome clause (patterns k) h
  refine ⟨mkMatch k clause
      { severity := (patterns k).severity
        confidence := min 0.95
          (0.6 + ((matchedKeywordsOf clause (patterns k)).length : ℚ) * 0.15)
        keywords := matchedKeywordsOf clause (patterns k) }, ?_, rfl, rfl, rfl⟩
  show _ ∈ (analyzeClause clause).matchList
  have hml : (analyzeClause clause).matchList =
      categoryList.filterMap (fun categoryKey =>
        (findPatternMatch clause (patterns categoryKey)).map
          (mkMatch categoryKey clause)) := rfl
  rw [hml]
  exact List.mem_filterMap.mpr ⟨k, hk, by rw [hfpm]; rfl⟩

/-- Witness for `matchConfidenceFormula`: a clause containing the keyword
`mandatory arbitration` produces a `FORCED_ARBITRATION` match with the
formula confidence. -/
theorem matchConfidenceFormulaWitness :
    (matchedKeywordsOf "You agree to mandatory arbitration with us"
        (patterns CategoryKey.FORCED_ARBITRATION)).length ≠ 0 ∧
    ∃ m ∈ (analyzeClause "You agree to mandatory arbitration with us").matchList,
      m.category = CategoryKey.FORCED_ARBITRATION ∧
      m.severity = (patterns CategoryKey.FORCED_ARBITRATION).severity ∧
      m.confidence = min 0.95
        (0.6 + ((matchedKeywordsOf "You agree to mandatory arbitration with us"
          (patterns CategoryKey.FORCED_ARBITRATION)).length : ℚ) * 0.15) :=
  ⟨by decide, matchConfidenceFormula _ _ (by decide)⟩

/-- With no risky clause, `calculateRiskScore` returns 0. -/
theorem calculateRiskScoreNoRisky (cs : List ClauseAnalysis)
    (p : UserPreferences) (h : cs.filter (fun c => c.is_risky) = []) :
    calculateRiskScore cs p = 0 := by
  unfold calculateRiskScore
  dsimp only
  split_ifs with h1 h2 h3
  · rfl
  · rfl
  · rfl
  · exact absurd (by rw [h]; rfl) h2

/-- With no risky clause, `calculateConfidence` returns 1. -/
theorem calculateConfidenceNoRisky (cs : List ClauseAnalysis)
    (h : cs.filter (fun c => c.is_risky) = []) :
    calculateConfidence cs = 1 := by
  unfold calculateConfidence
  dsimp only
  split_ifs with h1 h2 h3
  · norm_num
  · norm_num
  · exact absurd (by rw [h]; rfl) h2
  · exact absurd (by rw [h]; rfl) h2

/-- With no match in any clause, `generateRedFlags` returns no flag. -/
theorem generateRedFlagsNoMatches (cs : List ClauseAnalysis)
    (h : ∀ c ∈ cs, c.matchList = []) : generateRedFlags cs = [] := by
  unfold generateRedFlags
  dsimp only
  have hall : (cs.map (fun clause =>
      clause.matchList.map (fun m => (m, clause.text)))).flatten =
      ([] : List (Match × String)) := by
    apply List.flatten_eq_nil_iff.mpr
    intro l hl
    rcases List.mem_map.mp hl with ⟨c, hc, rfl⟩
    rw [h c hc]
    rfl
  rw [hall]
  rfl

/-- C5: on every text in which no extracted clause matches any category
pattern (in particular on empty or whitespace-only text, which yields no
clause at all), `analyze` returns `risk_score = 0`, `risk_level = LOW`,
no red flags and confidence 1. -/
theorem cleanTextAnalysis (text : String) (options : Options)
    (h : ∀ clause ∈ extractClauses (preprocessText text),
        (analyzeClause clause).matchList = []) :
    (analyze text options).risk_score = 0 ∧
    (analyze text options).risk_level = "LOW" ∧
    (analyze text options).red_flags = [] ∧
    (analyze text options).confidence = 1 := by
  have hcs : ∀ c ∈ (extractClauses (preprocessText text)).map analyzeClause,
      c.matchList = [] := by
    intro c hc
    rcases List.mem_map.mp hc with ⟨clause, hclause, rfl⟩
    exact h clause hclause
  have hfilter : ((extractClauses (preprocessText text)).map analyzeClause).filter
      (fun c => c.is_risky) = [] := by
    apply List.filter_eq_nil_iff.mpr
    intro c hc
    have hrisky : c.is_risky = (c.matchList.length != 0) := by
      rcases List.mem_map.mp hc with ⟨clause, _, rfl⟩
      rfl
    rw [hrisky, hcs c hc]
    simp
  have hscore : calculateRiskScore
      ((extractClauses (preprocessText text)).map analyzeClause)
      options.user_preferences = 0 :=
    calculateRiskScoreNoRisky _ _ hfilter
  refine ⟨hscore, ?_, generateRedFlagsNoMatches _ hcs,
    calculateConfidenceNoRisky _ hfilter⟩
  show getRiskLevel (calculateRiskScore
    ((extractClauses (preprocessText text)).map analyzeClause)
    options.user_preferences) = "LOW"
  rw [hscore]
  norm_num [getRiskLevel]

/-- Witness for `cleanTextAnalysis` at the empty text. -/
theorem cleanTextAnalysisWitness :
    (∀ clause ∈ extractClauses (preprocessText ""),
        (analyzeClause clause).matchList = []) ∧
    ((analyze "" {}).risk_score = 0 ∧ (analyze "" {}).risk_level = "LOW" ∧
     (analyze "" {}).red_flags = [] ∧ (analyze "" {}).confidence = 1) :=
  ⟨by decide, cleanTextAnalysis "" {} (by decide)⟩

/-- One step of the red-flag selection loop preserves the bound of 3
flags, the pairwise distinctness of their categories, and the fact that
every emitted category is recorded as used. -/
theorem rfStepInv (mc : Match × String) (acc : List RedFlag × List CategoryKey)
    (h1 : acc.1.length ≤ 3)
    (h2 : acc.1.Pairwise (fun a b => a.category ≠ b.category))
    (h3 : ∀ f ∈ acc.1, f.category ∈ acc.2) :
    (rfStep acc mc).1.length ≤ 3 ∧
    (rfStep acc mc).1.Pairwise (fun a b => a.category ≠ b.category) ∧
    ∀ f ∈ (rfStep acc mc).1, f.category ∈ (rfStep acc mc).2 := by
  unfold rfStep
  split_ifs with hc
  · obtain ⟨hnot, hlen⟩ := hc
    refine ⟨?_, ?_, ?_⟩
    · rw [List.length_append]
      simp only [List.length_cons, List.length_nil]
      omega
    · rw [List.pairwise_append]
      refine ⟨h2, List.pairwise_singleton _ _, ?_⟩
      intro a ha b hb
      rw [List.mem_singleton] at hb
      subst hb
      intro heq
      have hcat : (redFlagOf mc.1).category = mc.1.category := rfl
      rw [hcat] at heq
      exact hnot (heq ▸ h3 a ha)
    · intro f hf
      rcases List.mem_append.mp hf with hf | hf
      · exact List.mem_append.mpr (Or.inl (h3 f hf))
      · rw [List.mem_singleton] at hf
        subst hf
        exact List.mem_append.mpr (Or.inr (List.mem_singleton.mpr rfl))
  · exact ⟨h1, h2, h3⟩

/-- The red-flag selection fold preserves the bound and distinctness
invariants. -/
theorem rfFoldInv (l : List (Match × String))
    (acc : List RedFlag × List CategoryKey)
    (h1 : acc.1.length ≤ 3)
    (h2 : acc.1.Pairwise (fun a b => a.category ≠ b.category))
    (h3 : ∀ f ∈ acc.1, f.category ∈ acc.2) :
    (l.foldl rfStep acc).1.length ≤ 3 ∧
    (l.foldl rfStep acc).1.Pairwise (fun a b => a.category ≠ b.category) := by
  induction l generalizing acc with
  | nil => exact ⟨h1, h2⟩
  | cons mc l ih =>
    obtain ⟨g1, g2, g3⟩ := rfStepInv mc acc h1 h2 h3
    exact ih _ g1 g2 g3

/-- C4: for every input, the red-flag list of the analysis has at most 3
entries and no two entries share a category. -/
theorem redFlagsBoundedAndDistinct (text : String) (options : Options) :
    (analyze text options).red_flags.length ≤ 3 ∧
    (analyze text options).red_flags.Pairwise
      (fun a b => a.category ≠ b.category) :=
  rfFoldInv _ ([], []) (by simp) (by simp) (by simp)

end ConsentLens
